import Mathlib

/-!
Verification of the gesture interpretation and action-dispatch core of the
alea-aircursor repository (src/gesture.py), as a shallow embedding in Lean 4.

Modelling conventions:
* Landmark coordinates are the integers `(cx, cy)` that the source computes
  with `int(lm.x * w), int(lm.y * h)`; a landmark list is `List (ℤ × ℤ)`.
* Times (`time.time()` values, cooldowns, intervals) are rationals.
* `np.linalg.norm(p - q) < r` (a Euclidean-distance comparison against a
  radius) is embedded exactly, without square roots, as
  `distLtSq (distSq p q) r`, using the equivalence
  `sqrt d < r ↔ 0 < r ∧ d < r * r` for `0 ≤ d` (proved below as
  `distLtSq_eq_sqrt_lt`).
* The external pointer actuator (`pyautogui`) is modelled by an event list:
  each call the core makes is recorded as one `Event` in program order.
* The external landmark source (`mediapipe Hands.process`) is modelled as a
  function `Frame → DetectOutcome` passed to `process_frame`; the outcome
  `failure` corresponds to the `except` branch, `noHand` to
  `results.multi_hand_landmarks` being falsy, and `hand nlms` to one detected
  hand with normalized landmark coordinates (the source constructs
  `Hands(max_num_hands=1, ...)`, so a single hand is modelled).
-/

namespace AirCursor

/-- BGR color triple, as used for `self.landmark_colors` entries. -/
abbrev Color := ℤ × ℤ × ℤ

/-- `(0, 255, 0)`: the default green for all landmarks. -/
def green : Color := (0, 255, 0)

/-- `(0, 255, 255)`: yellow, used for hover zones. -/
def yellow : Color := (0, 255, 255)

/-- `(255, 0, 255)`: magenta, used for the active scroll zone. -/
def magenta : Color := (255, 0, 255)

/-- `(0, 0, 255)`: red, used for the active click-and-hold zone. -/
def red : Color := (0, 0, 255)

/-- `(255, 0, 0)`: blue, used for the active click zones. -/
def blue : Color := (255, 0, 0)

/-- The two scroll directions (`'up'` / `'down'` strings in the source);
`self.scroll_direction` is an `Option ScrollDir`, with `none` for `None`. -/
inductive ScrollDir where
  | up
  | down
deriving DecidableEq, Repr

/-- One call to the external pointer actuator (`pyautogui`). -/
inductive Event where
  | moveTo (x y : ℚ)
  | clickLeft
  | clickRight
  | mouseDown
  | mouseUp
  | scroll (amount : ℤ)
deriving DecidableEq, Repr

/-- The mutable state of a `HandTracker` instance: every `self.*` field of
`gesture.py` that the core reads or writes (the `mp_hands`/`hands` handles are
modelled by the single flag `hands_open`, set to `false` by `release`;
`tracked_landmarks` is a constant, kept as a separate definition below). -/
structure TrackerState where
  cooldown : ℚ
  click_radius : ℚ
  hover_radius : ℚ
  right_click_radius : ℚ
  right_hover_radius : ℚ
  hold_click_radius : ℚ
  hold_hover_radius : ℚ
  last_click_time : ℚ
  last_right_click_time : ℚ
  landmark_colors : List Color
  scroll_radius : ℚ
  scroll_hover_radius : ℚ
  scroll_speed : ℤ
  is_scrolling : Bool
  scroll_direction : Option ScrollDir
  last_scroll_time : ℚ
  scroll_interval : ℚ
  is_holding : Bool
  hold_start_time : ℚ
  hold_cooldown : ℚ
  hands_open : Bool
deriving DecidableEq, Repr

/-- `self.tracked_landmarks = [0, 3, 4, 5, 6, 7, 8, 9, 12, 20]`. -/
def tracked_landmarks : List ℕ := [0, 3, 4, 5, 6, 7, 8, 9, 12, 20]

/-- `HandTracker.__init__`, with the default argument values of the source
signature.  The `complexity` argument is forwarded to the external MediaPipe
`Hands` constructor and does not enter the tracker state. -/
def HandTracker_init (cooldown : ℚ := 0.4) (complexity : ℤ := 1)
    (click_radius : ℚ := 20) (hover_radius : ℚ := 25)
    (right_click_radius : ℚ := 50) (right_hover_radius : ℚ := 60)
    (hold_click_radius : ℚ := 30) (hold_hover_radius : ℚ := 35)
    (scroll_radius : ℚ := 20) (scroll_hover_radius : ℚ := 25)
    (scroll_speed : ℤ := 60) : TrackerState :=
  { cooldown := cooldown
    click_radius := click_radius
    hover_radius := hover_radius
    right_click_radius := right_click_radius
    right_hover_radius := right_hover_radius
    hold_click_radius := hold_click_radius
    hold_hover_radius := hold_hover_radius
    last_click_time := 0
    last_right_click_time := 0
    landmark_colors := List.replicate 21 green
    scroll_radius := scroll_radius
    scroll_hover_radius := scroll_hover_radius
    scroll_speed := scroll_speed
    is_scrolling := false
    scroll_direction := none
    last_scroll_time := 0
    scroll_interval := 0.1
    is_holding := false
    hold_start_time := 0
    hold_cooldown := 0.1
    hands_open := true }

/-- A tracker constructed with every argument left at its default. -/
def tDefault : TrackerState := HandTracker_init

/-- Landmark access `landmarks[i]`; the source only indexes after a length
guard, so the padding value `(0, 0)` is never read on any guarded path. -/
def lmGet (lms : List (ℤ × ℤ)) (i : ℕ) : ℤ × ℤ := lms.getD i (0, 0)

/-- Squared Euclidean distance between two landmark points; the source
computes `np.linalg.norm(np.array(p) - np.array(q))` (the Euclidean norm) and
only ever compares it against radii, so the square is what the embedding
stores. -/
def distSq (p q : ℤ × ℤ) : ℤ := (p.1 - q.1) ^ 2 + (p.2 - q.2) ^ 2

/-- Manhattan (axis-sum) distance between two landmark points.  This metric
does not occur in the source; it is defined to compare the source's scroll
detector with the spec's claimed axis-sum variant. -/
def manhattanDist (p q : ℤ × ℤ) : ℤ := |p.1 - q.1| + |p.2 - q.2|

/-- `sqrt dsq < r`, encoded without square roots: for a squared distance
`dsq ≥ 0` this equals `0 < r ∧ dsq < r * r` (see `distLtSq_eq_sqrt_lt`). -/
def distLtSq (dsq : ℤ) (r : ℚ) : Bool :=
  decide ((0 : ℚ) < r) && decide ((dsq : ℚ) < r * r)

/-- Manhattan distance comparison `d < r`; exact, no square root involved. -/
def manhattanLt (d : ℤ) (r : ℚ) : Bool := decide ((d : ℚ) < r)

/-- The embedding `distLtSq` agrees with the real-valued comparison
`Real.sqrt dsq < r` that the source performs via `np.linalg.norm`. -/
theorem distLtSq_eq_sqrt_lt (dsq : ℤ) (r : ℚ) :
    distLtSq dsq r = true ↔ Real.sqrt ((dsq : ℤ) : ℝ) < (r : ℝ) := by
  unfold distLtSq
  rcases le_or_lt r 0 with hr | hr
  · simp only [Bool.and_eq_true, decide_eq_true_eq]
    constructor
    · rintro ⟨h1, _⟩
      exact absurd h1 (not_lt.mpr hr)
    · intro hsq
      have h0 : (0 : ℝ) ≤ Real.sqrt ((dsq : ℤ) : ℝ) := Real.sqrt_nonneg _
      have : (0 : ℝ) < (r : ℝ) := lt_of_le_of_lt h0 hsq
      have : (0 : ℚ) < r := by exact_mod_cast this
      exact absurd this (not_lt.mpr hr)
  · have hrR : (0 : ℝ) < (r : ℝ) := by exact_mod_cast hr
    rw [Real.sqrt_lt' hrR]
    simp only [Bool.and_eq_true, decide_eq_true_eq]
    constructor
    · rintro ⟨_, h2⟩
      have : ((dsq : ℚ) : ℝ) < ((r * r : ℚ) : ℝ) := by exact_mod_cast h2
      push_cast at this ⊢
      nlinarith [this]
    · intro h2
      refine ⟨hr, ?_⟩
      have : ((dsq : ℤ) : ℝ) < (r : ℝ) * (r : ℝ) := by nlinarith [h2]
      exact_mod_cast this

/-- The scroll direction signal:
`mid_y = (index_tip[1] + middle_tip[1]) // 2`,
`vertical_diff = mid_y - middle_base[1]`,
`'up' if vertical_diff < -15 else 'down' if vertical_diff > 15 else None`.
Python `//` is floor division, embedded as `Int.fdiv`. -/
def scrollDirection (index_tip middle_tip middle_base : ℤ × ℤ) :
    Option ScrollDir :=
  let mid_y := Int.fdiv (index_tip.2 + middle_tip.2) 2
  let vertical_diff := mid_y - middle_base.2
  if vertical_diff < -15 then some ScrollDir.up
  else if 15 < vertical_diff then some ScrollDir.down
  else none

/-- `HandTracker._perform_scroll`: one `pyautogui.scroll` call with
`scroll_speed` for `'up'` and `-scroll_speed` otherwise. -/
def perform_scroll (s : TrackerState) : Event :=
  Event.scroll (if s.scroll_direction = some ScrollDir.up then s.scroll_speed
                else -s.scroll_speed)

/-- The repeated stop block of `detect_scroll`:
`if self.is_scrolling: self.is_scrolling = False` (and no actuator call). -/
def scroll_stop (s : TrackerState) : TrackerState × List Event :=
  (if s.is_scrolling then { s with is_scrolling := false } else s, [])

/-- The active-scroll-zone block of `detect_scroll`: start scrolling, or (if
already scrolling and the interval elapsed) update the direction and scroll
again. -/
def scroll_active (s : TrackerState) (direction : Option ScrollDir) (t : ℚ) :
    TrackerState × List Event :=
  if s.is_scrolling = false then
    let s := { s with is_scrolling := true, scroll_direction := direction }
    ({ s with last_scroll_time := t }, [perform_scroll s])
  else if s.scroll_interval < t - s.last_scroll_time then
    let s := if direction ≠ s.scroll_direction then
      { s with scroll_direction := direction } else s
    ({ s with last_scroll_time := t }, [perform_scroll s])
  else (s, [])

/-- `HandTracker.detect_scroll`: returns the updated state and the actuator
calls made, in order. -/
def detect_scroll (s : TrackerState) (landmarks : List (ℤ × ℤ)) (t : ℚ) :
    TrackerState × List Event :=
  if landmarks.length < 13 then scroll_stop s
  else
    let index_tip := lmGet landmarks 8
    let middle_tip := lmGet landmarks 12
    let middle_base := lmGet landmarks 9
    let dsq := distSq index_tip middle_tip
    let direction := scrollDirection index_tip middle_tip middle_base
    if distLtSq dsq s.scroll_hover_radius then
      let s := { s with landmark_colors :=
        ((s.landmark_colors.set 8 yellow).set 12 yellow).set 9 yellow }
      if distLtSq dsq s.scroll_radius && direction.isSome then
        let s := { s with landmark_colors :=
          ((s.landmark_colors.set 8 magenta).set 12 magenta).set 9 magenta }
        scroll_active s direction t
      else scroll_stop s
    else scroll_stop s

/-- The repeated release block of `detect_click_and_hold`:
`if self.is_holding: pyautogui.mouseUp(); self.is_holding = False`. -/
def hold_release (s : TrackerState) : TrackerState × List Event :=
  if s.is_holding then ({ s with is_holding := false }, [Event.mouseUp])
  else (s, [])

/-- The active-hold-zone block of `detect_click_and_hold`: start holding with
a `mouseDown()`, or keep holding (the `hold_cooldown` comparison in the
source guards only a `pass`, so no state change and no call). -/
def hold_active (s : TrackerState) (t : ℚ) : TrackerState × List Event :=
  if s.is_holding = false then
    ({ s with hold_start_time := t, is_holding := true }, [Event.mouseDown])
  else (s, [])

/-- `HandTracker.detect_click_and_hold`: thumb-tip(4)/index-tip(8) hold latch;
returns the updated state and actuator calls. -/
def detect_click_and_hold (s : TrackerState) (landmarks : List (ℤ × ℤ))
    (t : ℚ) : TrackerState × List Event :=
  if landmarks.length < 9 then (s, [])
  else
    let thumb_tip := lmGet landmarks 4
    let index_tip := lmGet landmarks 8
    let dsq := distSq thumb_tip index_tip
    if distLtSq dsq s.hold_hover_radius then
      let s := { s with landmark_colors :=
        (s.landmark_colors.set 4 yellow).set 8 yellow }
      if distLtSq dsq s.hold_click_radius then
        let s := { s with landmark_colors :=
          (s.landmark_colors.set 4 red).set 8 red }
        hold_active s t
      else hold_release s
    else hold_release s

/-- One iteration of the `for idx in [5, 6, 7, 8]` loop body of
`detect_thumb_index_contact`: updates highlight colors and ors the
contact flag. -/
def clickScanStep (thumb_tip : ℤ × ℤ) (landmarks : List (ℤ × ℤ))
    (acc : TrackerState × Bool) (idx : ℕ) : TrackerState × Bool :=
  let s := acc.1
  let dsq := distSq thumb_tip (lmGet landmarks idx)
  if distLtSq dsq s.hover_radius then
    let s := { s with landmark_colors :=
      (s.landmark_colors.set 4 yellow).set idx yellow }
    if distLtSq dsq s.click_radius then
      ({ s with landmark_colors :=
         (s.landmark_colors.set 4 blue).set idx blue }, true)
    else (s, acc.2)
  else (s, acc.2)

/-- `HandTracker.detect_thumb_index_contact`: the debounced left-click
detector; returns the updated state and whether a left click fires. -/
def detect_thumb_index_contact (s : TrackerState) (landmarks : List (ℤ × ℤ))
    (t : ℚ) : TrackerState × Bool :=
  if landmarks.length < 9 ∨ t - s.last_click_time < s.cooldown ∨
      s.is_holding then (s, false)
  else
    let thumb_tip := lmGet landmarks 4
    let r := ([5, 6, 7, 8] : List ℕ).foldl (clickScanStep thumb_tip landmarks)
      (s, false)
    if r.2 then ({ r.1 with last_click_time := t }, true)
    else (r.1, false)

/-- `HandTracker.detect_pinky_wrist_contact`: the debounced right-click
detector; returns the updated state and whether a right click fires. -/
def detect_pinky_wrist_contact (s : TrackerState) (landmarks : List (ℤ × ℤ))
    (t : ℚ) : TrackerState × Bool :=
  if landmarks.length < 21 ∨ t - s.last_right_click_time < s.cooldown then
    (s, false)
  else
    let pinky_tip := lmGet landmarks 20
    let wrist := lmGet landmarks 0
    let dsq := distSq pinky_tip wrist
    if distLtSq dsq s.right_hover_radius then
      let s := { s with landmark_colors :=
        (s.landmark_colors.set 20 yellow).set 0 yellow }
      if distLtSq dsq s.right_click_radius then
        ({ s with
             landmark_colors := (s.landmark_colors.set 20 blue).set 0 blue
             last_right_click_time := t }, true)
      else (s, false)
    else (s, false)

/-- A camera frame: width, height, and a pixel grid (`numpy.ndarray` of BGR
pixels, indexed `data x y` for column `x`, row `y`). -/
structure Frame where
  w : ℤ
  h : ℤ
  data : ℤ → ℤ → Color

/-- `cv2.flip(frame, 1)`: horizontal mirror. -/
def hflip (f : Frame) : Frame :=
  { w := f.w, h := f.h, data := fun x y => f.data (f.w - 1 - x) y }

/-- `cv2.circle(frame, (cx, cy), 6, color, -1)`: a filled circle of radius 6
around a landmark center. -/
def drawCircle (f : Frame) (center : ℤ × ℤ) (color : Color) : Frame :=
  { w := f.w, h := f.h
    data := fun x y =>
      if (x - center.1) ^ 2 + (y - center.2) ^ 2 ≤ 36 then color
      else f.data x y }

/-- `HandTracker.draw_points_only`: draws each in-range tracked landmark. -/
def draw_points_only (f : Frame) (landmarks : List (ℤ × ℤ))
    (colors : List Color) : Frame :=
  tracked_landmarks.foldl
    (fun fr idx =>
      if idx < landmarks.length then
        drawCircle fr (lmGet landmarks idx) (colors.getD idx green)
      else fr)
    f

/-- What one call to the external landmark source yields: the `except` branch
(`failure`), no detected hand (`noHand`), or one hand's normalized landmark
coordinates (`hand`). -/
inductive DetectOutcome where
  | failure
  | noHand
  | hand (nlms : List (ℚ × ℚ))
deriving DecidableEq

/-- Python `int(q)`: truncation toward zero.  For `q = n / d` in lowest terms
with `d > 0`, Lean's `Int` division `n / d` truncates toward zero. -/
def pyInt (q : ℚ) : ℤ := q.num / (q.den : ℤ)

/-- The landmark-extraction loop of `process_frame`:
`cx, cy = int(lm.x * w), int(lm.y * h)` over the hand's landmarks. -/
def extractLandmarks (f : Frame) (nlms : List (ℚ × ℚ)) : List (ℤ × ℤ) :=
  nlms.map fun p => (pyInt (p.1 * (f.w : ℚ)), pyInt (p.2 * (f.h : ℚ)))

/-- `np.interp(x, [x0, x1], [y0, y1])`: linear interpolation, clamped to the
endpoint values outside `[x0, x1]`. -/
def npInterp (x x0 x1 : ℤ) (y0 y1 : ℚ) : ℚ :=
  if x ≤ x0 then y0
  else if x1 ≤ x then y1
  else y0 + (y1 - y0) * ((x - x0 : ℤ) : ℚ) / ((x1 - x0 : ℤ) : ℚ)

/-- The body of `process_frame`'s hand branch, after landmark extraction:
color reset, cursor movement, then the four detectors in source order, with
the left-click query short-circuited by `not self.is_holding and ...`.
`w`/`h` are the (mirrored) frame dimensions, `sw`/`sh` the screen size from
`pyautogui.size()`.  Returns the updated state and the actuator calls made,
in program order. -/
def handStep (s : TrackerState) (landmarks : List (ℤ × ℤ)) (t : ℚ)
    (w h sw sh : ℤ) : TrackerState × List Event :=
  let s1 : TrackerState := { s with landmark_colors := List.replicate 21 green }
  let moveEvs : List Event :=
    if 8 < landmarks.length then
      [Event.moveTo (npInterp (lmGet landmarks 8).1 0 w 0 (sw : ℚ))
        (npInterp (lmGet landmarks 8).2 0 h 0 (sh : ℚ))]
    else []
  let r2 := detect_scroll s1 landmarks t
  let r3 := detect_click_and_hold r2.1 landmarks t
  let r4 := if r3.1.is_holding then (r3.1, false)
            else detect_thumb_index_contact r3.1 landmarks t
  let clickEvs : List Event := if r4.2 then [Event.clickLeft] else []
  let r5 := detect_pinky_wrist_contact r4.1 landmarks t
  let rightEvs : List Event := if r5.2 then [Event.clickRight] else []
  (r5.1, moveEvs ++ r2.2 ++ r3.2 ++ clickEvs ++ rightEvs)

/-- The tracker state just before the left-click query inside the hand
branch: after the per-frame color reset, scroll detection and hold
detection. -/
def preClickState (s : TrackerState) (landmarks : List (ℤ × ℤ)) (t : ℚ) :
    TrackerState :=
  (detect_click_and_hold
    (detect_scroll { s with landmark_colors := List.replicate 21 green }
      landmarks t).1
    landmarks t).1

/-- `HandTracker.process_frame`: mirrors the frame, runs the landmark source
on the mirrored frame, and dispatches to the failure / no-hand / hand paths.
Returns the updated state, the returned frame, and the actuator calls. -/
def process_frame (s : TrackerState) (frame : Frame)
    (det : Frame → DetectOutcome) (t : ℚ) (sw sh : ℤ) :
    TrackerState × Frame × List Event :=
  let frame := hflip frame
  match det frame with
  | DetectOutcome.failure => (s, frame, [])
  | DetectOutcome.noHand =>
      -- "If no hands detected, reset states"
      if s.is_holding then
        ({ s with is_holding := false }, frame, [Event.mouseUp])
      else (s, frame, [])
  | DetectOutcome.hand nlms =>
      let landmarks := extractLandmarks frame nlms
      let r := handStep s landmarks t frame.w frame.h sw sh
      (r.1, draw_points_only frame landmarks r.1.landmark_colors, r.2)

/-- `HandTracker.release`: the entire body is `self.hands.close()`; no
actuator call is made and no detector state is touched. -/
def release (s : TrackerState) : TrackerState × List Event :=
  ({ s with hands_open := false }, [])

/-- The axis-sum (Manhattan) variant of the scroll detector, following the
spec's words ("a cheaper axis-sum (Manhattan) distance for the scroll
detector") for comparison with the source's `detect_scroll`; it differs only
in the distance metric used for the two zone tests. -/
def detect_scroll_manhattan (s : TrackerState) (landmarks : List (ℤ × ℤ))
    (t : ℚ) : TrackerState × List Event :=
  if landmarks.length < 13 then scroll_stop s
  else
    let index_tip := lmGet landmarks 8
    let middle_tip := lmGet landmarks 12
    let middle_base := lmGet landmarks 9
    let d := manhattanDist index_tip middle_tip
    let direction := scrollDirection index_tip middle_tip middle_base
    if manhattanLt d s.scroll_hover_radius then
      let s := { s with landmark_colors :=
        ((s.landmark_colors.set 8 yellow).set 12 yellow).set 9 yellow }
      if manhattanLt d s.scroll_radius && direction.isSome then
        let s := { s with landmark_colors :=
          ((s.landmark_colors.set 8 magenta).set 12 magenta).set 9 magenta }
        scroll_active s direction t
      else scroll_stop s
    else scroll_stop s

/-- The times at which `clickLeft()` fires along a run of hand frames
(`(landmarks, time)` pairs), each processed by `handStep`. -/
def clickTimes (s : TrackerState) (w h sw sh : ℤ) :
    List (List (ℤ × ℤ) × ℚ) → List ℚ
  | [] => []
  | (landmarks, t) :: rest =>
      let r := handStep s landmarks t w h sw sh
      if Event.clickLeft ∈ r.2 then t :: clickTimes r.1 w h sw sh rest
      else clickTimes r.1 w h sw sh rest

/-- How many of the given times fall in the half-open window `[a, a + T)`. -/
def countWindow (ts : List ℚ) (a T : ℚ) : ℕ :=
  (ts.filter fun t => decide (a ≤ t) && decide (t < a + T)).length

/-! ### Concrete inputs used to exercise the theorems -/

/-- 13 landmarks putting the scroll pair (8, 12) in the active scroll zone
with direction up: Euclidean distance `sqrt 392 ≈ 19.8 < 20`, Manhattan
distance `28 ≥ 25`. -/
def demoScrollLms : List (ℤ × ℤ) :=
  [(900, 900), (900, 900), (900, 900), (900, 900), (500, 500), (900, 900),
   (900, 900), (900, 900), (0, 0), (0, 30), (900, 900), (900, 900), (14, 14)]

/-- 21 landmarks with a thumb(4)/landmark-5 left-click contact and every
other gesture pair far apart. -/
def demoClickLms : List (ℤ × ℤ) :=
  [(900, 900), (800, 800), (800, 800), (800, 800), (0, 0), (5, 0),
   (300, 300), (300, 300), (100, 100), (200, 200), (300, 300), (300, 300),
   (500, 500), (300, 300), (300, 300), (300, 300), (300, 300), (300, 300),
   (300, 300), (300, 300), (-900, -900)]

/-- 13 landmarks with the active scroll zone held (distance `sqrt 392 < 20`)
and the direction signal flipped to down (`vertical_diff = 57 > 15`). -/
def demoFlipLms : List (ℤ × ℤ) :=
  [(900, 900), (800, 800), (800, 800), (800, 800), (500, 500), (300, 300),
   (300, 300), (300, 300), (0, 100), (0, 50), (300, 300), (300, 300),
   (14, 114)]

/-- A tracker that currently holds the mouse button and has the scroll flag
running. -/
def heldState : TrackerState :=
  { tDefault with
      is_holding := true
      is_scrolling := true
      scroll_direction := some ScrollDir.up }

/-- A tracker mid-scroll-run with direction up, last actuation at time 0. -/
def runningState : TrackerState :=
  { tDefault with
      is_scrolling := true
      scroll_direction := some ScrollDir.up
      last_scroll_time := 0 }

/-- A tiny 2×2 camera frame. -/
def demoFrame : Frame := { w := 2, h := 2, data := fun _ _ => green }

/-! ### Helper lemmas about the detectors -/

/-- Fields of the tracker state that the scroll path never writes: everything
except the scroll flags/timestamps and the highlight colors. -/
abbrev ScrollOnlyTouched (s r : TrackerState) : Prop :=
  r.cooldown = s.cooldown ∧ r.last_click_time = s.last_click_time ∧
  r.is_holding = s.is_holding ∧ r.hover_radius = s.hover_radius ∧
  r.click_radius = s.click_radius ∧
  r.hold_hover_radius = s.hold_hover_radius ∧
  r.hold_click_radius = s.hold_click_radius

theorem scroll_stop_preserves (s : TrackerState) :
    ScrollOnlyTouched s (scroll_stop s).1 := by
  unfold ScrollOnlyTouched scroll_stop
  split_ifs <;> simp

theorem scroll_active_preserves (s : TrackerState) (d : Option ScrollDir)
    (t : ℚ) : ScrollOnlyTouched s (scroll_active s d t).1 := by
  unfold ScrollOnlyTouched scroll_active
  split_ifs <;> simp

theorem scrollOnlyTouched_colors (s : TrackerState) (c : List Color)
    (r : TrackerState)
    (h : ScrollOnlyTouched { s with landmark_colors := c } r) :
    ScrollOnlyTouched s r := by
  unfold ScrollOnlyTouched at h ⊢
  simpa using h

theorem detect_scroll_preserves (s : TrackerState) (lms : List (ℤ × ℤ))
    (t : ℚ) : ScrollOnlyTouched s (detect_scroll s lms t).1 := by
  unfold detect_scroll
  dsimp only
  split_ifs
  · exact scroll_stop_preserves s
  · exact scrollOnlyTouched_colors _ _ _ (scroll_active_preserves _ _ _)
  · exact scrollOnlyTouched_colors _ _ _ (scroll_stop_preserves _)
  · exact scroll_stop_preserves s

theorem scroll_active_events_shape (s : TrackerState) (d : Option ScrollDir)
    (t : ℚ) : ∀ e ∈ (scroll_active s d t).2, ∃ n, e = Event.scroll n := by
  unfold scroll_active perform_scroll
  split_ifs <;> simp

theorem detect_scroll_events_shape (s : TrackerState) (lms : List (ℤ × ℤ))
    (t : ℚ) :
    ∀ e ∈ (detect_scroll s lms t).2, ∃ n, e = Event.scroll n := by
  unfold detect_scroll
  dsimp only
  split_ifs
  · simp [scroll_stop]
  · exact scroll_active_events_shape _ _ _
  · simp [scroll_stop]
  · simp [scroll_stop]

/-- Fields of the tracker state that the hold path never writes. -/
abbrev HoldOnlyTouched (s r : TrackerState) : Prop :=
  r.cooldown = s.cooldown ∧ r.last_click_time = s.last_click_time ∧
  r.hover_radius = s.hover_radius ∧ r.click_radius = s.click_radius ∧
  r.is_scrolling = s.is_scrolling

theorem hold_release_preserves (s : TrackerState) :
    HoldOnlyTouched s (hold_release s).1 := by
  unfold HoldOnlyTouched hold_release
  split_ifs <;> simp

theorem hold_active_preserves (s : TrackerState) (t : ℚ) :
    HoldOnlyTouched s (hold_active s t).1 := by
  unfold HoldOnlyTouched hold_active
  split_ifs <;> simp

theorem holdOnlyTouched_colors (s : TrackerState) (c : List Color)
    (r : TrackerState)
    (h : HoldOnlyTouched { s with landmark_colors := c } r) :
    HoldOnlyTouched s r := by
  unfold HoldOnlyTouched at h ⊢
  simpa using h

theorem detect_hold_preserves (s : TrackerState) (lms : List (ℤ × ℤ))
    (t : ℚ) : HoldOnlyTouched s (detect_click_and_hold s lms t).1 := by
  unfold detect_click_and_hold
  dsimp only
  split_ifs
  · unfold HoldOnlyTouched
    simp
  · exact holdOnlyTouched_colors _ _ _ (hold_active_preserves _ _)
  · exact holdOnlyTouched_colors _ _ _ (hold_release_preserves _)
  · exact hold_release_preserves s

theorem hold_release_events_shape (s : TrackerState) :
    ∀ e ∈ (hold_release s).2, e = Event.mouseUp := by
  unfold hold_release
  split_ifs <;> simp

theorem hold_active_events_shape (s : TrackerState) (t : ℚ) :
    ∀ e ∈ (hold_active s t).2, e = Event.mouseDown := by
  unfold hold_active
  split_ifs <;> simp

theorem detect_hold_events_shape (s : TrackerState) (lms : List (ℤ × ℤ))
    (t : ℚ) :
    ∀ e ∈ (detect_click_and_hold s lms t).2,
      e = Event.mouseDown ∨ e = Event.mouseUp := by
  unfold detect_click_and_hold
  dsimp only
  split_ifs
  · simp
  · exact fun e he => Or.inl (hold_active_events_shape _ _ e he)
  · exact fun e he => Or.inr (hold_release_events_shape _ e he)
  · exact fun e he => Or.inr (hold_release_events_shape _ e he)

theorem detect_pinky_preserves (s : TrackerState) (lms : List (ℤ × ℤ))
    (t : ℚ) :
    (detect_pinky_wrist_contact s lms t).1.cooldown = s.cooldown ∧
    (detect_pinky_wrist_contact s lms t).1.last_click_time =
      s.last_click_time := by
  unfold detect_pinky_wrist_contact
  dsimp only
  split_ifs <;> simp

/-- One scan step only recolors landmarks and ors in the two-zone Euclidean
contact test for its index. -/
theorem clickScanStep_spec (thumb : ℤ × ℤ) (lms : List (ℤ × ℤ))
    (acc : TrackerState × Bool) (idx : ℕ) :
    ∃ c, clickScanStep thumb lms acc idx =
      ({ acc.1 with landmark_colors := c },
       acc.2 || (distLtSq (distSq thumb (lmGet lms idx)) acc.1.hover_radius &&
                 distLtSq (distSq thumb (lmGet lms idx)) acc.1.click_radius)) := by
  unfold clickScanStep
  dsimp only
  split_ifs with h1 h2
  · refine ⟨(((acc.1.landmark_colors.set 4 yellow).set idx yellow).set 4
      blue).set idx blue, ?_⟩
    simp [h1, h2]
  · refine ⟨(acc.1.landmark_colors.set 4 yellow).set idx yellow, ?_⟩
    simp [h1, h2]
  · exact ⟨acc.1.landmark_colors, by simp [h1]⟩

/-- The `for idx in [5, 6, 7, 8]` scan: the contact flag is the disjunction
of the per-index two-zone tests, and only colors are written. -/
theorem clickScan_foldl (thumb : ℤ × ℤ) (lms : List (ℤ × ℤ)) (L : List ℕ) :
    ∀ (s : TrackerState) (b : Bool),
    ∃ c, L.foldl (clickScanStep thumb lms) (s, b) =
      ({ s with landmark_colors := c },
       b || L.any fun idx =>
         distLtSq (distSq thumb (lmGet lms idx)) s.hover_radius &&
         distLtSq (distSq thumb (lmGet lms idx)) s.click_radius) := by
  induction L with
  | nil => exact fun s b => ⟨s.landmark_colors, by simp⟩
  | cons i L ih =>
      intro s b
      obtain ⟨c1, h1⟩ := clickScanStep_spec thumb lms (s, b) i
      obtain ⟨c2, h2⟩ := ih { s with landmark_colors := c1 }
        (b || (distLtSq (distSq thumb (lmGet lms i)) s.hover_radius &&
               distLtSq (distSq thumb (lmGet lms i)) s.click_radius))
      refine ⟨c2, ?_⟩
      rw [List.foldl_cons, h1]
      dsimp only at h2 ⊢
      rw [h2]
      simp [Bool.or_assoc]

/-- The left-click detector fires exactly when the landmark list is long
enough, the cooldown has elapsed, the hold latch is idle, and the thumb tip
is in the active zone of one of the index-finger joints 5, 6, 7, 8. -/
theorem detect_click_fired_iff (s : TrackerState) (lms : List (ℤ × ℤ))
    (t : ℚ) :
    (detect_thumb_index_contact s lms t).2 = true ↔
      (9 ≤ lms.length ∧ s.cooldown ≤ t - s.last_click_time ∧
       s.is_holding = false ∧
       ∃ idx, idx ∈ ([5, 6, 7, 8] : List ℕ) ∧
         distLtSq (distSq (lmGet lms 4) (lmGet lms idx)) s.hover_radius =
           true ∧
         distLtSq (distSq (lmGet lms 4) (lmGet lms idx)) s.click_radius =
           true) := by
  unfold detect_thumb_index_contact
  dsimp only
  obtain ⟨c, hfold⟩ := clickScan_foldl (lmGet lms 4) lms [5, 6, 7, 8] s false
  split_ifs with hguard hfired
  · simp only [false_iff]
    intro ⟨hlen, hcool, hhold, _⟩
    rcases hguard with h | h | h
    · omega
    · exact absurd hcool (not_le.mpr h)
    · rw [hhold] at h
      exact Bool.false_ne_true h
  · push_neg at hguard
    rw [hfold] at hfired
    simp only [Bool.false_or] at hfired
    obtain ⟨idx, hmem, hp⟩ := List.any_eq_true.mp hfired
    rw [Bool.and_eq_true] at hp
    simp only [true_iff]
    exact ⟨by omega, hguard.2.1, by simpa using hguard.2.2, idx, hmem,
      hp.1, hp.2⟩
  · rw [hfold] at hfired
    simp only [Bool.false_or, Bool.not_eq_true] at hfired
    simp only [false_iff]
    rintro ⟨_, _, _, idx, hmem, hh, hc⟩
    have : ([5, 6, 7, 8] : List ℕ).any (fun idx =>
        distLtSq (distSq (lmGet lms 4) (lmGet lms idx)) s.hover_radius &&
        distLtSq (distSq (lmGet lms 4) (lmGet lms idx)) s.click_radius) =
          true :=
      List.any_eq_true.mpr ⟨idx, hmem, by rw [Bool.and_eq_true]; exact ⟨hh, hc⟩⟩
    rw [this] at hfired
    exact absurd hfired (by decide)

/-- The left-click detector never changes cooldown, radii or the hold
latch; its colors and `last_click_time` are its only writes. -/
theorem detect_click_cooldown (s : TrackerState) (lms : List (ℤ × ℤ))
    (t : ℚ) :
    (detect_thumb_index_contact s lms t).1.cooldown = s.cooldown := by
  unfold detect_thumb_index_contact
  dsimp only
  obtain ⟨c, hfold⟩ := clickScan_foldl (lmGet lms 4) lms [5, 6, 7, 8] s false
  rw [hfold]
  split_ifs <;> simp

/-- `last_click_time` after the left-click detector: stamped to `t` when it
fires, unchanged when it does not. -/
theorem detect_click_lastClick (s : TrackerState) (lms : List (ℤ × ℤ))
    (t : ℚ) :
    ((detect_thumb_index_contact s lms t).2 = true →
      (detect_thumb_index_contact s lms t).1.last_click_time = t) ∧
    ((detect_thumb_index_contact s lms t).2 = false →
      (detect_thumb_index_contact s lms t).1.last_click_time =
        s.last_click_time) := by
  unfold detect_thumb_index_contact
  dsimp only
  obtain ⟨c, hfold⟩ := clickScan_foldl (lmGet lms 4) lms [5, 6, 7, 8] s false
  rw [hfold]
  split_ifs <;> constructor <;> intro hv <;> simp_all

/-- In `process_frame`, `not self.is_holding and self.detect_thumb_index_contact(...)`
equals the plain detector call: when the latch is held the detector's own
guard makes it return `(s, False)` untouched anyway. -/
theorem click_gate_eq (s : TrackerState) (lms : List (ℤ × ℤ)) (t : ℚ) :
    (if s.is_holding then (s, false)
     else detect_thumb_index_contact s lms t) =
      detect_thumb_index_contact s lms t := by
  cases h : s.is_holding
  · simp [h]
  · simp only [h, if_true]
    unfold detect_thumb_index_contact
    rw [if_pos (Or.inr (Or.inr h))]

/-- `clickLeft` appears among the events of `handStep` exactly when the
left-click detector fires at the pre-click state. -/
theorem handStep_clickLeft_iff (s : TrackerState) (lms : List (ℤ × ℤ))
    (t : ℚ) (w h sw sh : ℤ) :
    Event.clickLeft ∈ (handStep s lms t w h sw sh).2 ↔
      (detect_thumb_index_contact (preClickState s lms t) lms t).2 = true := by
  unfold handStep preClickState
  dsimp only
  rw [click_gate_eq]
  constructor
  · intro hmem
    simp only [List.mem_append] at hmem
    rcases hmem with ((((hm | hm) | hm) | hm) | hm)
    · revert hm
      split_ifs <;> simp
    · obtain ⟨n, hn⟩ := detect_scroll_events_shape _ lms t _ hm
      exact absurd hn (by simp)
    · rcases detect_hold_events_shape _ lms t _ hm with hn | hn <;>
        exact absurd hn (by simp)
    · revert hm
      split_ifs with hf
      · intro _
        exact hf
      · simp
    · revert hm
      split_ifs <;> simp
  · intro hf
    simp only [List.mem_append]
    refine Or.inl (Or.inr ?_)
    rw [if_pos hf]
    simp

/-- The cooldown and `last_click_time` are unchanged between the input state
and the pre-click state. -/
theorem preClickState_fields (s : TrackerState) (lms : List (ℤ × ℤ))
    (t : ℚ) :
    (preClickState s lms t).cooldown = s.cooldown ∧
    (preClickState s lms t).last_click_time = s.last_click_time := by
  unfold preClickState
  constructor
  · rw [(detect_hold_preserves _ lms t).1, (detect_scroll_preserves _ lms t).1]
  · rw [(detect_hold_preserves _ lms t).2.1,
      (detect_scroll_preserves _ lms t).2.1]

/-- `handStep` never changes the cooldown. -/
theorem handStep_cooldown (s : TrackerState) (lms : List (ℤ × ℤ)) (t : ℚ)
    (w h sw sh : ℤ) :
    (handStep s lms t w h sw sh).1.cooldown = s.cooldown := by
  unfold handStep
  dsimp only
  rw [click_gate_eq]
  rw [(detect_pinky_preserves _ lms t).1, detect_click_cooldown _ lms t]
  exact (preClickState_fields s lms t).1

/-- If `clickLeft` fires in a `handStep`, the elapsed time since
`last_click_time` was at least the cooldown, and the stamp is updated to the
frame time. -/
theorem handStep_lastClick_fired (s : TrackerState) (lms : List (ℤ × ℤ))
    (t : ℚ) (w h sw sh : ℤ)
    (hm : Event.clickLeft ∈ (handStep s lms t w h sw sh).2) :
    s.cooldown ≤ t - s.last_click_time ∧
    (handStep s lms t w h sw sh).1.last_click_time = t := by
  have hf := (handStep_clickLeft_iff s lms t w h sw sh).mp hm
  have hiff := (detect_click_fired_iff (preClickState s lms t) lms t).mp hf
  constructor
  · have h1 := (preClickState_fields s lms t).1
    have h2 := (preClickState_fields s lms t).2
    rw [← h1, ← h2]
    exact hiff.2.1
  · unfold handStep
    dsimp only
    rw [click_gate_eq]
    rw [(detect_pinky_preserves _ lms t).2]
    exact (detect_click_lastClick (preClickState s lms t) lms t).1 hf

/-- If `clickLeft` does not fire in a `handStep`, `last_click_time` is left
unchanged. -/
theorem handStep_lastClick_not_fired (s : TrackerState) (lms : List (ℤ × ℤ))
    (t : ℚ) (w h sw sh : ℤ)
    (hm : Event.clickLeft ∉ (handStep s lms t w h sw sh).2) :
    (handStep s lms t w h sw sh).1.last_click_time = s.last_click_time := by
  have hf : (detect_thumb_index_contact (preClickState s lms t) lms t).2 =
      false := by
    cases hv : (detect_thumb_index_contact (preClickState s lms t) lms t).2
    · rfl
    · exact absurd ((handStep_clickLeft_iff s lms t w h sw sh).mpr hv) hm
  unfold handStep
  dsimp only
  rw [click_gate_eq]
  rw [(detect_pinky_preserves _ lms t).2]
  show (detect_thumb_index_contact (preClickState s lms t) lms
    t).1.last_click_time = s.last_click_time
  rw [(detect_click_lastClick (preClickState s lms t) lms t).2 hf]
  exact (preClickState_fields s lms t).2

/-- The first click of a run comes no earlier than `last_click_time`
plus the cooldown. -/
theorem clickTimes_head_ge (w h sw sh : ℤ) :
    ∀ (fs : List (List (ℤ × ℤ) × ℚ)) (s : TrackerState) (u : ℚ)
      (rest : List ℚ), clickTimes s w h sw sh fs = u :: rest →
      s.last_click_time + s.cooldown ≤ u := by
  intro fs
  induction fs with
  | nil => intro s u rest heq; exact absurd heq (by simp [clickTimes])
  | cons f rest ih =>
      intro s u tail heq
      rw [clickTimes] at heq
      by_cases hm : Event.clickLeft ∈ (handStep s f.1 f.2 w h sw sh).2
      · rw [if_pos hm] at heq
        obtain ⟨hcool, _⟩ := handStep_lastClick_fired s f.1 f.2 w h sw sh hm
        have : u = f.2 := (List.cons.injEq _ _ _ _ ▸ heq).1.symm
        subst this
        linarith
      · rw [if_neg hm] at heq
        have h1 := ih (handStep s f.1 f.2 w h sw sh).1 u tail heq
        rw [handStep_lastClick_not_fired s f.1 f.2 w h sw sh hm,
          handStep_cooldown s f.1 f.2 w h sw sh] at h1
        exact h1

/-- Along any run, consecutive `clickLeft` firings are at least one cooldown
apart. -/
theorem clickTimes_chain (w h sw sh : ℤ) :
    ∀ (fs : List (List (ℤ × ℤ) × ℚ)) (s : TrackerState),
      List.Chain' (fun a b => a + s.cooldown ≤ b)
        (clickTimes s w h sw sh fs) := by
  intro fs
  induction fs with
  | nil => intro s; simp [clickTimes]
  | cons f rest ih =>
      intro s
      rw [clickTimes]
      by_cases hm : Event.clickLeft ∈ (handStep s f.1 f.2 w h sw sh).2
      · rw [if_pos hm]
        rw [List.chain'_cons']
        constructor
        · intro y hy
          cases hhead : clickTimes (handStep s f.1 f.2 w h sw sh).1 w h sw sh
              rest with
          | nil => rw [hhead] at hy; simp at hy
          | cons u tl =>
              rw [hhead] at hy
              simp only [List.head?_cons, Option.mem_def, Option.some.injEq]
                at hy
              subst hy
              have hge := clickTimes_head_ge w h sw sh rest
                (handStep s f.1 f.2 w h sw sh).1 u tl hhead
              obtain ⟨_, hstamp⟩ :=
                handStep_lastClick_fired s f.1 f.2 w h sw sh hm
              rw [hstamp, handStep_cooldown s f.1 f.2 w h sw sh] at hge
              exact hge
        · have h1 := ih (handStep s f.1 f.2 w h sw sh).1
          rw [handStep_cooldown s f.1 f.2 w h sw sh] at h1
          exact h1
      · rw [if_neg hm]
        have h1 := ih (handStep s f.1 f.2 w h sw sh).1
        rw [handStep_cooldown s f.1 f.2 w h sw sh] at h1
        exact h1

/-- In a cooldown-spaced chain, the last element of `x :: l` is at least
`x + l.length * c`. -/
theorem chain_last_ge (c : ℚ) :
    ∀ (l : List ℚ) (x : ℚ),
      List.Chain' (fun a b => a + c ≤ b) (x :: l) →
      x + l.length * c ≤ (x :: l).getLast (List.cons_ne_nil x l) := by
  intro l
  induction l with
  | nil => intro x _; simp
  | cons z l ih =>
      intro x hch
      rw [List.chain'_cons] at hch
      have h1 := ih z hch.2
      have hxz : x + c ≤ z := hch.1
      have : (x :: z :: l).getLast (List.cons_ne_nil x (z :: l)) =
          (z :: l).getLast (List.cons_ne_nil z l) := by
        simp [List.getLast_cons]
      rw [this]
      rw [List.length_cons]
      push_cast
      push_cast at h1
      linarith

/-- A cooldown-spaced chain whose elements all lie in the half-open window
`[a, a + T)` has at most `⌈T / c⌉` elements. -/
theorem chain_window_bound (c : ℚ) (hc : 0 < c) (a T : ℚ) (hT : 0 ≤ T) :
    ∀ ts : List ℚ, List.Chain' (fun x y => x + c ≤ y) ts →
      (∀ x ∈ ts, a ≤ x ∧ x < a + T) → (ts.length : ℤ) ≤ ⌈T / c⌉ := by
  intro ts hch hmem
  cases ts with
  | nil =>
      simp only [List.length_nil, Nat.cast_zero]
      exact Int.ceil_nonneg (div_nonneg hT (le_of_lt hc))
  | cons x l =>
      have hlast := chain_last_ge c l x hch
      have hxin := hmem x (List.mem_cons_self x l)
      have hlastin := hmem ((x :: l).getLast (List.cons_ne_nil x l))
        (List.getLast_mem _)
      have hspan : (l.length : ℚ) * c < T := by
        have := hlastin.2
        have := hxin.1
        linarith
      have hlt : (l.length : ℚ) < T / c := by
        rw [lt_div_iff₀ hc]
        exact hspan
      have hceil : (l.length : ℤ) < ⌈T / c⌉ := by
        rw [Int.lt_ceil]
        exact_mod_cast hlt
      rw [List.length_cons]
      push_cast
      omega

/-- Sublists of cooldown-spaced chains are cooldown-spaced (the spacing
relation is transitive for a nonnegative cooldown). -/
theorem chain_sublist (c : ℚ) (hc : 0 ≤ c) {l₁ l₂ : List ℚ}
    (hch : List.Chain' (fun x y => x + c ≤ y) l₂) (hsub : l₁.Sublist l₂) :
    List.Chain' (fun x y => x + c ≤ y) l₁ :=
  @List.Chain'.sublist _ _ _ _
    ⟨fun x y z hxy hyz => by
      change x + c ≤ y at hxy
      change y + c ≤ z at hyz
      change x + c ≤ z
      linarith⟩ hch hsub

/-! ### Claim theorems -/

theorem update_is_holding_self (s : TrackerState) (h : s.is_holding = false) :
    { s with is_holding := false } = s := by
  cases s
  dsimp only at h
  rw [h]

/-- C1 (counterexample): on a no-hand frame while Held and Running, the
scroll flag is NOT reset: `is_scrolling` stays `true`, contradicting the
claimed transition to Scroll-Stopped. -/
theorem C1_counterexample :
    heldState.is_holding = true ∧ heldState.is_scrolling = true ∧
    (process_frame heldState demoFrame (fun _ => DetectOutcome.noHand) 0
      1920 1080).1.is_scrolling = true := by
  exact ⟨rfl, rfl, rfl⟩

/-- C1 (amended): on a no-hand frame, `process_frame` emits exactly one
`mouseUp()` if the latch was Held, forces the Hold Latch to Idle, and leaves
every other state field — in particular `is_scrolling` — unchanged; no scroll
actuation occurs on such a frame. -/
theorem C1_no_hand_resets_hold_only (s : TrackerState) (frame : Frame)
    (det : Frame → DetectOutcome) (t : ℚ) (sw sh : ℤ)
    (hdet : det (hflip frame) = DetectOutcome.noHand) :
    process_frame s frame det t sw sh =
      ({ s with is_holding := false }, hflip frame,
       if s.is_holding then [Event.mouseUp] else []) := by
  unfold process_frame
  dsimp only
  rw [hdet]
  cases h : s.is_holding
  · dsimp only
    rw [if_neg (by exact Bool.false_ne_true),
      if_neg (by exact Bool.false_ne_true),
      update_is_holding_self s h]
  · dsimp only
    rw [if_pos rfl, if_pos rfl]

theorem C1_witness :
    (fun _ => DetectOutcome.noHand) (hflip demoFrame) =
      DetectOutcome.noHand ∧
    process_frame heldState demoFrame (fun _ => DetectOutcome.noHand) 0
        1920 1080 =
      ({ heldState with is_holding := false }, hflip demoFrame,
       [Event.mouseUp]) :=
  ⟨rfl, C1_no_hand_resets_hold_only heldState demoFrame
    (fun _ => DetectOutcome.noHand) 0 1920 1080 rfl⟩

/-- C2 (counterexample): `release()` with the latch still Held makes no
actuator call at all — no best-effort `mouseUp()` — and leaves the latch
held, contradicting the claim. -/
theorem C2_counterexample :
    heldState.is_holding = true ∧ (release heldState).2 = [] ∧
    (release heldState).1.is_holding = true :=
  ⟨rfl, rfl, rfl⟩

/-- C2 (amended): `release()` only releases the landmark source
(`self.hands.close()`); it emits no actuator call, does not reset the hold
latch or the scroll flag, and there is no background scroll loop to stop
(scrolling is synchronous with frame processing). -/
theorem C2_release_only_closes_source (s : TrackerState) :
    (release s).1.hands_open = false ∧ (release s).2 = [] ∧
    (release s).1.is_holding = s.is_holding ∧
    (release s).1.is_scrolling = s.is_scrolling :=
  ⟨rfl, rfl, rfl, rfl⟩

/-- C3 (counterexample): with a Held latch and an insufficient landmark list,
`detect_click_and_hold` does NOT release: it returns the state unchanged
(latch still Held) and emits no `mouseUp()`, contradicting the claimed forced
release. -/
theorem C3_counterexample :
    heldState.is_holding = true ∧
    detect_click_and_hold heldState [] 0 = (heldState, []) :=
  ⟨rfl, rfl⟩

/-- C3 (amended): on an insufficient landmark list no detector indexes out of
range: the scroll detector forces Stopped (`is_scrolling := false`, no
actuator call), while the hold, left-click and right-click detectors return
without any action — the hold latch keeps its state (a Held latch stays Held,
with no `mouseUp()`), and the click detectors report no gesture. -/
theorem C3_short_landmarks_safe :
    (∀ (s : TrackerState) (lms : List (ℤ × ℤ)) (t : ℚ), lms.length < 13 →
      (detect_scroll s lms t).1.is_scrolling = false ∧
      (detect_scroll s lms t).2 = []) ∧
    (∀ (s : TrackerState) (lms : List (ℤ × ℤ)) (t : ℚ), lms.length < 9 →
      detect_click_and_hold s lms t = (s, [])) ∧
    (∀ (s : TrackerState) (lms : List (ℤ × ℤ)) (t : ℚ), lms.length < 9 →
      detect_thumb_index_contact s lms t = (s, false)) ∧
    (∀ (s : TrackerState) (lms : List (ℤ × ℤ)) (t : ℚ), lms.length < 21 →
      detect_pinky_wrist_contact s lms t = (s, false)) := by
  refine ⟨?_, ?_, ?_, ?_⟩
  · intro s lms t h
    unfold detect_scroll
    rw [if_pos h]
    unfold scroll_stop
    split_ifs <;> simp_all
  · intro s lms t h
    unfold detect_click_and_hold
    rw [if_pos h]
  · intro s lms t h
    unfold detect_thumb_index_contact
    rw [if_pos (Or.inl h)]
  · intro s lms t h
    unfold detect_pinky_wrist_contact
    rw [if_pos (Or.inl h)]

theorem C3_witness :
    ([] : List (ℤ × ℤ)).length < 13 ∧
    (detect_scroll heldState [] 5).1.is_scrolling = false ∧
    detect_click_and_hold heldState [] 5 = (heldState, []) ∧
    detect_thumb_index_contact heldState [] 5 = (heldState, false) ∧
    detect_pinky_wrist_contact heldState [] 5 = (heldState, false) :=
  ⟨by decide, (C3_short_landmarks_safe.1 heldState [] 5 (by decide)).1,
   C3_short_landmarks_safe.2.1 heldState [] 5 (by decide),
   C3_short_landmarks_safe.2.2.1 heldState [] 5 (by decide),
   C3_short_landmarks_safe.2.2.2 heldState [] 5 (by decide)⟩

/-- C8 (counterexample): the constructor defaults for the scroll radii are
20 (active) and 25 (hover), not the claimed 25/30 (25/30 are the values the
UI shell passes at its call site, not the constructor defaults). -/
theorem C8_counterexample :
    tDefault.scroll_radius = 20 ∧ tDefault.scroll_hover_radius = 25 ∧
    ¬(tDefault.scroll_radius = 25 ∧ tDefault.scroll_hover_radius = 30) := by
  refine ⟨rfl, rfl, ?_⟩
  intro h
  have := h.1
  norm_num [tDefault, HandTracker_init] at this

/-- C8 (amended): the constructor defaults are cooldown 0.4s, click radii
20/25 px, right-click 50/60 px, hold 30/35 px, scroll 20/25 px, scroll speed
60; the scroll interval is 0.1s, fixed internally — it is set by the
constructor body regardless of the arguments and is not a parameter. -/
theorem C8_defaults :
    tDefault.cooldown = 0.4 ∧ tDefault.click_radius = 20 ∧
    tDefault.hover_radius = 25 ∧ tDefault.right_click_radius = 50 ∧
    tDefault.right_hover_radius = 60 ∧ tDefault.hold_click_radius = 30 ∧
    tDefault.hold_hover_radius = 35 ∧ tDefault.scroll_radius = 20 ∧
    tDefault.scroll_hover_radius = 25 ∧ tDefault.scroll_speed = 60 ∧
    tDefault.scroll_interval = 0.1 ∧
    (∀ (c : ℚ) (k : ℤ) (cr hr rcr rhr hcr hhr sr shr : ℚ) (ss : ℤ),
      (HandTracker_init c k cr hr rcr rhr hcr hhr sr shr ss).scroll_interval =
        0.1) :=
  ⟨rfl, rfl, rfl, rfl, rfl, rfl, rfl, rfl, rfl, rfl, rfl,
   fun _ _ _ _ _ _ _ _ _ _ _ => rfl⟩

/-- C9 (confirmed): executing the Hold Latch release path while already Idle
produces no actuator call; `mouseUp()` is emitted by the latch only on the
Held-to-Idle edge (and then exactly once); the no-hand reset path likewise
emits nothing when already Idle. -/
theorem C9_release_idempotent :
    (∀ (s : TrackerState) (lms : List (ℤ × ℤ)) (t : ℚ),
      s.is_holding = false →
      distLtSq (distSq (lmGet lms 4) (lmGet lms 8)) s.hold_click_radius =
        false →
      (detect_click_and_hold s lms t).2 = []) ∧
    (∀ (s : TrackerState) (lms : List (ℤ × ℤ)) (t : ℚ),
      Event.mouseUp ∈ (detect_click_and_hold s lms t).2 →
      s.is_holding = true ∧
      (detect_click_and_hold s lms t).1.is_holding = false ∧
      (detect_click_and_hold s lms t).2 = [Event.mouseUp]) ∧
    (∀ (s : TrackerState) (frame : Frame) (det : Frame → DetectOutcome)
      (t : ℚ) (sw sh : ℤ), det (hflip frame) = DetectOutcome.noHand →
      s.is_holding = false → (process_frame s frame det t sw sh).2.2 = []) := by
  refine ⟨?_, ?_, ?_⟩
  · intro s lms t hidle hfar
    unfold detect_click_and_hold hold_release hold_active
    dsimp only
    split_ifs <;> simp_all
  · intro s lms t hm
    revert hm
    unfold detect_click_and_hold hold_release hold_active
    dsimp only
    split_ifs <;> intro hm <;> simp_all
  · intro s frame det t sw sh hdet hidle
    unfold process_frame
    dsimp only
    rw [hdet]
    dsimp only
    rw [if_neg (by rw [hidle]; exact Bool.false_ne_true)]

theorem C9_witness :
    tDefault.is_holding = false ∧
    distLtSq (distSq (lmGet demoClickLms 4) (lmGet demoClickLms 8))
      tDefault.hold_click_radius = false ∧
    (detect_click_and_hold tDefault demoClickLms 5).2 = [] :=
  ⟨rfl,
   by norm_num [distLtSq, distSq, lmGet, demoClickLms, tDefault,
     HandTracker_init],
   C9_release_idempotent.1 tDefault demoClickLms 5 rfl
     (by norm_num [distLtSq, distSq, lmGet, demoClickLms, tDefault,
       HandTracker_init])⟩

/-- C4 (counterexample): at a concrete hand pose (index tip `(0,0)`, middle
tip `(14,14)`: Euclidean distance `sqrt 392 < 20`, Manhattan distance
`28 ≥ 25`) the source's scroll detector starts Running and scrolls, while
the axis-sum (Manhattan) variant described by the claim sees no hover zone
and stays Stopped — so the scroll detector does not use the Manhattan
metric. -/
theorem C4_counterexample :
    (detect_scroll tDefault demoScrollLms 0).1.is_scrolling = true ∧
    (detect_scroll tDefault demoScrollLms 0).2 = [Event.scroll 60] ∧
    (detect_scroll_manhattan tDefault demoScrollLms 0).1.is_scrolling =
      false ∧
    (detect_scroll_manhattan tDefault demoScrollLms 0).2 = [] := by
  refine ⟨?_, ?_, ?_, ?_⟩ <;>
    norm_num [detect_scroll, detect_scroll_manhattan, scroll_stop,
      scroll_active, perform_scroll, scrollDirection, distLtSq, distSq,
      manhattanLt, manhattanDist, lmGet, demoScrollLms, tDefault,
      HandTracker_init, Int.fdiv]

/-- C4 (amended): every detector — scroll included — uses the Euclidean
metric (`np.linalg.norm`), encoded by `distLtSq` over squared Euclidean
distances: scroll enters Running exactly under the Euclidean two-zone test
plus a direction, the hold latch engages exactly under the Euclidean
two-zone test, the right-click fires exactly under the Euclidean two-zone
test plus its cooldown, and a left-click fire requires a Euclidean
active-zone contact. -/
theorem C4_all_detectors_euclidean :
    (∀ (s : TrackerState) (lms : List (ℤ × ℤ)) (t : ℚ),
      s.is_scrolling = false → 13 ≤ lms.length →
      ((detect_scroll s lms t).1.is_scrolling = true ↔
        distLtSq (distSq (lmGet lms 8) (lmGet lms 12))
          s.scroll_hover_radius = true ∧
        distLtSq (distSq (lmGet lms 8) (lmGet lms 12)) s.scroll_radius =
          true ∧
        (scrollDirection (lmGet lms 8) (lmGet lms 12)
          (lmGet lms 9)).isSome = true)) ∧
    (∀ (s : TrackerState) (lms : List (ℤ × ℤ)) (t : ℚ),
      s.is_holding = false → 9 ≤ lms.length →
      ((detect_click_and_hold s lms t).2 = [Event.mouseDown] ↔
        distLtSq (distSq (lmGet lms 4) (lmGet lms 8)) s.hold_hover_radius =
          true ∧
        distLtSq (distSq (lmGet lms 4) (lmGet lms 8)) s.hold_click_radius =
          true)) ∧
    (∀ (s : TrackerState) (lms : List (ℤ × ℤ)) (t : ℚ),
      ((detect_pinky_wrist_contact s lms t).2 = true ↔
        21 ≤ lms.length ∧ s.cooldown ≤ t - s.last_right_click_time ∧
        distLtSq (distSq (lmGet lms 20) (lmGet lms 0))
          s.right_hover_radius = true ∧
        distLtSq (distSq (lmGet lms 20) (lmGet lms 0))
          s.right_click_radius = true)) ∧
    (∀ (s : TrackerState) (lms : List (ℤ × ℤ)) (t : ℚ),
      (detect_thumb_index_contact s lms t).2 = true →
      ∃ idx, idx ∈ ([5, 6, 7, 8] : List ℕ) ∧
        distLtSq (distSq (lmGet lms 4) (lmGet lms idx)) s.click_radius =
          true) := by
  refine ⟨?_, ?_, ?_, ?_⟩
  · intro s lms t h0 hlen
    unfold detect_scroll scroll_active scroll_stop
    dsimp only
    rw [if_neg (not_lt.mpr hlen)]
    split_ifs <;> simp_all
  · intro s lms t h0 hlen
    unfold detect_click_and_hold hold_active hold_release
    dsimp only
    rw [if_neg (not_lt.mpr hlen)]
    split_ifs <;> simp_all
  · intro s lms t
    unfold detect_pinky_wrist_contact
    dsimp only
    split_ifs with hguard hh ha
    · simp only [false_iff]
      rintro ⟨h1, h2, _, _⟩
      rcases hguard with hc | hc
      · omega
      · exact absurd h2 (not_le.mpr hc)
    · push_neg at hguard
      simp only [true_iff]
      exact ⟨by omega, hguard.2, hh, ha⟩
    · push_neg at hguard
      simp only [false_iff]
      rintro ⟨_, _, _, h4⟩
      exact absurd h4 (by simp [ha])
    · push_neg at hguard
      simp only [false_iff]
      rintro ⟨_, _, h3, _⟩
      exact absurd h3 (by simp [hh])
  · intro s lms t hf
    obtain ⟨_, _, _, idx, hmem, _, hc⟩ :=
      (detect_click_fired_iff s lms t).mp hf
    exact ⟨idx, hmem, hc⟩

theorem C4_witness :
    tDefault.is_scrolling = false ∧ 13 ≤ demoScrollLms.length ∧
    (detect_scroll tDefault demoScrollLms 0).1.is_scrolling = true :=
  ⟨rfl, by norm_num [demoScrollLms],
   (C4_all_detectors_euclidean.1 tDefault demoScrollLms 0 rfl
     (by norm_num [demoScrollLms])).mpr
     (by norm_num [distLtSq, distSq, lmGet, demoScrollLms, tDefault,
       HandTracker_init, scrollDirection, Int.fdiv])⟩

/-- C5 (confirmed): while the Hold Latch is Held, `clickLeft()` is never
emitted — the left-click detector short-circuits to `False` (and changes
nothing) whenever `is_holding` is set, and on any processed hand frame where
the latch is Held after the hold evaluation, the frame's event list contains
no `clickLeft`. -/
theorem C5_no_click_while_held :
    (∀ (s : TrackerState) (lms : List (ℤ × ℤ)) (t : ℚ),
      s.is_holding = true → detect_thumb_index_contact s lms t = (s, false)) ∧
    (∀ (s : TrackerState) (frame : Frame) (det : Frame → DetectOutcome)
      (t : ℚ) (sw sh : ℤ) (nlms : List (ℚ × ℚ)),
      det (hflip frame) = DetectOutcome.hand nlms →
      (preClickState s (extractLandmarks (hflip frame) nlms) t).is_holding =
        true →
      Event.clickLeft ∉ (process_frame s frame det t sw sh).2.2) := by
  constructor
  · intro s lms t h
    unfold detect_thumb_index_contact
    rw [if_pos (Or.inr (Or.inr h))]
  · intro s frame det t sw sh nlms hdet hheld hmem
    unfold process_frame at hmem
    dsimp only at hmem
    rw [hdet] at hmem
    dsimp only at hmem
    have hf := (handStep_clickLeft_iff s
      (extractLandmarks (hflip frame) nlms) t (hflip frame).w
      (hflip frame).h sw sh).mp hmem
    have := ((detect_click_fired_iff _ _ _).mp hf).2.2.1
    rw [hheld] at this
    exact absurd this (by decide)

theorem C5_witness :
    heldState.is_holding = true ∧
    detect_thumb_index_contact heldState demoClickLms 1 =
      (heldState, false) :=
  ⟨rfl, C5_no_click_while_held.1 heldState demoClickLms 1 rfl⟩

/-- C7 (confirmed): the direction signal is Up iff the vertical offset of the
index/middle midpoint relative to the middle-finger base is below −15px,
Down iff above +15px, and None otherwise; Running is entered from Stopped
only when the distance is in the Active zone and the direction is not None;
and when a direction `d` is signalled mid-run with the interval elapsed, the
commanded direction switches to `d` at that tick and one scroll with the new
sign is emitted, without the Running state stopping or restarting. -/
theorem C7_scroll_direction_machine :
    (∀ i m b : ℤ × ℤ,
      (scrollDirection i m b = some ScrollDir.up ↔
        Int.fdiv (i.2 + m.2) 2 - b.2 < -15) ∧
      (scrollDirection i m b = some ScrollDir.down ↔
        15 < Int.fdiv (i.2 + m.2) 2 - b.2) ∧
      (scrollDirection i m b = none ↔
        -15 ≤ Int.fdiv (i.2 + m.2) 2 - b.2 ∧
        Int.fdiv (i.2 + m.2) 2 - b.2 ≤ 15)) ∧
    (∀ (s : TrackerState) (lms : List (ℤ × ℤ)) (t : ℚ),
      s.is_scrolling = false →
      (detect_scroll s lms t).1.is_scrolling = true →
      distLtSq (distSq (lmGet lms 8) (lmGet lms 12)) s.scroll_radius =
        true ∧
      scrollDirection (lmGet lms 8) (lmGet lms 12) (lmGet lms 9) ≠ none) ∧
    (∀ (s : TrackerState) (lms : List (ℤ × ℤ)) (t : ℚ) (d : ScrollDir),
      s.is_scrolling = true → 13 ≤ lms.length →
      distLtSq (distSq (lmGet lms 8) (lmGet lms 12))
        s.scroll_hover_radius = true →
      distLtSq (distSq (lmGet lms 8) (lmGet lms 12)) s.scroll_radius =
        true →
      scrollDirection (lmGet lms 8) (lmGet lms 12) (lmGet lms 9) = some d →
      s.scroll_interval < t - s.last_scroll_time →
      ((detect_scroll s lms t).1.is_scrolling = true ∧
       (detect_scroll s lms t).1.scroll_direction = some d ∧
       (detect_scroll s lms t).2 =
         [Event.scroll
           (if d = ScrollDir.up then s.scroll_speed
            else -s.scroll_speed)])) := by
  refine ⟨?_, ?_, ?_⟩
  · intro i m b
    unfold scrollDirection
    dsimp only
    split_ifs with h1 h2 <;>
      refine ⟨?_, ?_, ?_⟩ <;> simp <;> omega
  · intro s lms t h0 h1
    unfold detect_scroll scroll_stop at h1
    dsimp only at h1
    split_ifs at h1 <;>
      first
        | (simp_all; done)
        | (rename_i hcond
           simp only [Bool.and_eq_true] at hcond
           exact ⟨hcond.1, Option.isSome_iff_ne_none.mp hcond.2⟩)
  · intro s lms t d h0 hlen hh ha hdir hint
    unfold detect_scroll scroll_active perform_scroll
    dsimp only
    rw [if_neg (not_lt.mpr hlen)]
    rw [if_pos hh]
    rw [if_pos (show (distLtSq (distSq (lmGet lms 8) (lmGet lms 12))
      s.scroll_radius &&
      (scrollDirection (lmGet lms 8) (lmGet lms 12)
        (lmGet lms 9)).isSome) = true by
      rw [ha, hdir]; rfl)]
    rw [if_neg (show ¬s.is_scrolling = false by rw [h0]; decide)]
    rw [if_pos hint]
    rw [hdir]
    split_ifs with hne <;> cases d <;> simp_all

theorem C7_witness :
    runningState.is_scrolling = true ∧
    runningState.scroll_direction = some ScrollDir.up ∧
    (detect_scroll runningState demoFlipLms 1).1.is_scrolling = true ∧
    (detect_scroll runningState demoFlipLms 1).1.scroll_direction =
      some ScrollDir.down ∧
    (detect_scroll runningState demoFlipLms 1).2 = [Event.scroll (-60)] := by
  have h := C7_scroll_direction_machine.2.2 runningState demoFlipLms 1
    ScrollDir.down rfl (by norm_num [demoFlipLms])
    (by norm_num [distLtSq, distSq, lmGet, demoFlipLms, runningState,
      tDefault, HandTracker_init])
    (by norm_num [distLtSq, distSq, lmGet, demoFlipLms, runningState,
      tDefault, HandTracker_init])
    (by decide)
    (by norm_num [runningState, tDefault, HandTracker_init])
  exact ⟨rfl, rfl, h.1, h.2.1, h.2.2⟩

theorem drawCircle_far (f : Frame) (cent : ℤ × ℤ) (col : Color) (x y : ℤ)
    (h : 36 < (x - cent.1) ^ 2 + (y - cent.2) ^ 2) :
    (drawCircle f cent col).data x y = f.data x y := by
  unfold drawCircle
  dsimp only
  rw [if_neg (not_le.mpr h)]

theorem drawCircle_dims (f : Frame) (cent : ℤ × ℤ) (col : Color) :
    (drawCircle f cent col).w = f.w ∧ (drawCircle f cent col).h = f.h :=
  ⟨rfl, rfl⟩

/-- A pixel farther than the circle radius from every drawn landmark is left
unchanged by the landmark overlay. -/
theorem drawList_far (lms : List (ℤ × ℤ)) (colors : List Color) (x y : ℤ) :
    ∀ (L : List ℕ) (f : Frame),
    (∀ i ∈ L, i < lms.length →
      36 < (x - (lmGet lms i).1) ^ 2 + (y - (lmGet lms i).2) ^ 2) →
    (L.foldl
      (fun fr idx =>
        if idx < lms.length then
          drawCircle fr (lmGet lms idx) (colors.getD idx green)
        else fr) f).data x y = f.data x y := by
  intro L
  induction L with
  | nil => intro f _; rfl
  | cons i L ih =>
      intro f h
      rw [List.foldl_cons]
      rw [ih _ fun j hj hl => h j (List.mem_cons_of_mem i hj) hl]
      by_cases hc : i < lms.length
      · rw [if_pos hc]
        exact drawCircle_far f _ _ x y (h i (List.mem_cons_self i L) hc)
      · rw [if_neg hc]

theorem drawList_dims (lms : List (ℤ × ℤ)) (colors : List Color) :
    ∀ (L : List ℕ) (f : Frame),
    (L.foldl
      (fun fr idx =>
        if idx < lms.length then
          drawCircle fr (lmGet lms idx) (colors.getD idx green)
        else fr) f).w = f.w ∧
    (L.foldl
      (fun fr idx =>
        if idx < lms.length then
          drawCircle fr (lmGet lms idx) (colors.getD idx green)
        else fr) f).h = f.h := by
  intro L
  induction L with
  | nil => intro f; exact ⟨rfl, rfl⟩
  | cons i L ih =>
      intro f
      rw [List.foldl_cons]
      refine ⟨?_, ?_⟩
      · rw [(ih _).1]
        by_cases hc : i < lms.length <;> simp [hc, drawCircle]
      · rw [(ih _).2]
        by_cases hc : i < lms.length <;> simp [hc, drawCircle]

/-- C10 (confirmed): `process_frame` mirrors the frame before landmark
detection — the landmark source is only ever consulted on `hflip frame`, and
the whole result depends on the source only through its answer there; the
returned frame is the mirrored frame on the failure path and on the no-hand
path, and on the hand path it is the mirrored frame with only the landmark
overlay circles drawn on it (identical to `hflip frame` away from those
circles, with unchanged dimensions). -/
theorem C10_mirrored_frame (s : TrackerState) (frame : Frame)
    (det : Frame → DetectOutcome) (t : ℚ) (sw sh : ℤ) :
    (det (hflip frame) = DetectOutcome.failure →
      process_frame s frame det t sw sh = (s, hflip frame, [])) ∧
    (det (hflip frame) = DetectOutcome.noHand →
      (process_frame s frame det t sw sh).2.1 = hflip frame) ∧
    (∀ det2 : Frame → DetectOutcome,
      det2 (hflip frame) = det (hflip frame) →
      process_frame s frame det2 t sw sh =
        process_frame s frame det t sw sh) ∧
    (∀ (nlms : List (ℚ × ℚ)) (x y : ℤ),
      det (hflip frame) = DetectOutcome.hand nlms →
      (∀ i ∈ tracked_landmarks,
        i < (extractLandmarks (hflip frame) nlms).length →
        36 < (x - (lmGet (extractLandmarks (hflip frame) nlms) i).1) ^ 2 +
          (y - (lmGet (extractLandmarks (hflip frame) nlms) i).2) ^ 2) →
      (process_frame s frame det t sw sh).2.1.data x y =
        (hflip frame).data x y) ∧
    ((process_frame s frame det t sw sh).2.1.w = frame.w ∧
     (process_frame s frame det t sw sh).2.1.h = frame.h) := by
  refine ⟨?_, ?_, ?_, ?_, ?_⟩
  · intro hdet
    unfold process_frame
    dsimp only
    rw [hdet]
  · intro hdet
    unfold process_frame
    dsimp only
    rw [hdet]
    dsimp only
    split_ifs <;> rfl
  · intro det2 hdet2
    unfold process_frame
    dsimp only
    rw [hdet2]
  · intro nlms x y hdet hfar
    unfold process_frame
    dsimp only
    rw [hdet]
    dsimp only
    unfold draw_points_only
    exact drawList_far _ _ x y tracked_landmarks (hflip frame) hfar
  · unfold process_frame
    dsimp only
    cases hdet : det (hflip frame) with
    | failure => exact ⟨rfl, rfl⟩
    | noHand =>
        dsimp only
        split_ifs <;> exact ⟨rfl, rfl⟩
    | hand nlms =>
        dsimp only
        unfold draw_points_only
        constructor
        · rw [(drawList_dims _ _ tracked_landmarks (hflip frame)).1]
          rfl
        · rw [(drawList_dims _ _ tracked_landmarks (hflip frame)).2]
          rfl

theorem C10_witness :
    (fun _ => DetectOutcome.failure) (hflip demoFrame) =
      DetectOutcome.failure ∧
    process_frame tDefault demoFrame (fun _ => DetectOutcome.failure) 0
        1920 1080 =
      (tDefault, hflip demoFrame, []) :=
  ⟨rfl, (C10_mirrored_frame tDefault demoFrame
    (fun _ => DetectOutcome.failure) 0 1920 1080).1 rfl⟩

/-- C6 (confirmed): `clickLeft()` fires exactly when an index-finger joint in
{5,6,7,8} is in the thumb's active zone AND the elapsed time since
`last_click_time` is at least the cooldown AND the Hold Latch is not Held;
on firing `last_click_time` is stamped to the frame time; consequently, along
any run of hand frames the number of `clickLeft()` emissions with times in a
half-open window `[a, a + T)` is at most `⌈T / cooldown⌉`. -/
theorem C6_click_cooldown_bound :
    (∀ (s : TrackerState) (lms : List (ℤ × ℤ)) (t : ℚ),
      (detect_thumb_index_contact s lms t).2 = true ↔
        (9 ≤ lms.length ∧ s.cooldown ≤ t - s.last_click_time ∧
         s.is_holding = false ∧
         ∃ idx, idx ∈ ([5, 6, 7, 8] : List ℕ) ∧
           distLtSq (distSq (lmGet lms 4) (lmGet lms idx)) s.hover_radius =
             true ∧
           distLtSq (distSq (lmGet lms 4) (lmGet lms idx)) s.click_radius =
             true)) ∧
    (∀ (s : TrackerState) (lms : List (ℤ × ℤ)) (t : ℚ),
      (detect_thumb_index_contact s lms t).2 = true →
      (detect_thumb_index_contact s lms t).1.last_click_time = t) ∧
    (∀ (s : TrackerState) (w h sw sh : ℤ)
      (fs : List (List (ℤ × ℤ) × ℚ)) (a T : ℚ),
      0 < s.cooldown → 0 ≤ T →
      ((countWindow (clickTimes s w h sw sh fs) a T : ℤ) ≤
        ⌈T / s.cooldown⌉)) := by
  refine ⟨detect_click_fired_iff, ?_, ?_⟩
  · intro s lms t hf
    exact (detect_click_lastClick s lms t).1 hf
  · intro s w h sw sh fs a T hc hT
    have hch := clickTimes_chain w h sw sh fs s
    unfold countWindow
    apply chain_window_bound s.cooldown hc a T hT
    · exact chain_sublist s.cooldown (le_of_lt hc) hch
        (List.filter_sublist _)
    · intro x hx
      have hp := (List.mem_filter.mp hx).2
      simp only [Bool.and_eq_true, decide_eq_true_eq] at hp
      exact hp

theorem C6_witness :
    0 < tDefault.cooldown ∧ (0 : ℚ) ≤ 1 ∧
    ((countWindow
        (clickTimes tDefault 640 480 1920 1080 [(demoClickLms, 1)])
        (1 / 2) 1 : ℤ) ≤ ⌈(1 : ℚ) / tDefault.cooldown⌉) :=
  ⟨by norm_num [tDefault, HandTracker_init], by norm_num,
   C6_click_cooldown_bound.2.2 tDefault 640 480 1920 1080
     [(demoClickLms, 1)] (1 / 2) 1
     (by norm_num [tDefault, HandTracker_init]) (by norm_num)⟩

end AirCursor